import Mathlib

/-!
Verification of the `hyperbrowser examples` demo repository against its
natural-language specification.

The repository is a family of Python demo applications (daytrip-planner,
budget-travel-agent, article-tts, changelog-builder, ...).  This file gives a
shallow embedding, in Lean, of the pure computational content of the code the
specification's claims are about:

* the pagination arithmetic of `display_travel_data`
  (`src/daytrip-planner/main.py` and `src/agents/budget-travel-agent/main.py`,
  both contain the same slicing code);
* the page-cursor session state and its mutation sites;
* the retry configuration of `call_openai_api`
  (`src/changelog-builder/changelog_generator.py`, a `tenacity` decorator);
* the record validation of `extract_travel_data_from_image`
  (`src/daytrip-planner/chatgpt_parser.py`, pydantic validation of
  `TravelResponseData`);
* the response mapper `ArticleContent.from_json` (`src/article-tts/app.py`);
* the location validator `validate_city`
  (`src/daytrip-planner/location_validator.py`);
* the keyword-based commit categorisation of
  `generate_categorized_changelog` (`src/changelog-builder/changelog_generator.py`);
* the screenshot cropping of `process_screenshot` / `crop_screenshot`
  (`src/daytrip-planner/main.py`).

Python machine-level details that the claims do not touch (file paths,
temporary files, the Streamlit widget machinery) are abstracted; the
arithmetic, control flow and data-validation logic are translated line by
line from the source.
-/

/- ------------------------------------------------------------------ -/
/- Pagination (`display_travel_data`)                                  -/
/- ------------------------------------------------------------------ -/

namespace Pagination

/-- `page_size = 5` in `display_travel_data`
(`src/daytrip-planner/main.py` line 449, `budget-travel-agent/main.py` line 328). -/
def page_size : Nat := 5

/-- `num_pages = (total_destinations + page_size - 1) // page_size`
(ceiling division, `main.py` line 451). `total` is `len(travel_data)`. -/
def num_pages (total P : Nat) : Nat := (total + P - 1) / P

/-- The slice displayed for a given 1-based page:
`start_idx = (page_number - 1) * page_size`,
`end_idx = min(start_idx + page_size, total_destinations)`,
`travel_data[start_idx:end_idx]` (`main.py` lines 470-471, 480).
A Python slice `[s:e]` with `e = min(s + P, N)` is `take P` after `drop s`. -/
def pageSlice {α : Type} (rs : List α) (P page : Nat) : List α :=
  (rs.drop ((page - 1) * P)).take P

/-- All pages in order, concatenated (pages are numbered `1 .. num_pages`). -/
def pagesConcat {α : Type} (rs : List α) (P : Nat) : List α :=
  ((List.range (num_pages rs.length P)).map (fun i => pageSlice rs P (i + 1))).flatten

/-- `st.number_input("Page", min_value=1, max_value=num_pages, value=...)`:
the widget constrains the requested value into `[min_value, max_value]`
(`main.py` lines 455-462). -/
def number_input_value (lo hi requested : Nat) : Nat :=
  Nat.max lo (Nat.min requested hi)

/-- The effective page number used by `display_travel_data`: the
`number_input` value when `num_pages > 1`, and `1` otherwise
(`main.py` lines 454-467). -/
def effective_page (total requested : Nat) : Nat :=
  if 1 < num_pages total page_size then
    number_input_value 1 (num_pages total page_size) requested
  else 1

/-- `start_idx = (page_number - 1) * page_size` for the effective page
(`main.py` line 470). -/
def start_idx (total requested : Nat) : Nat :=
  (effective_page total requested - 1) * page_size

lemma num_pages_le_iff {N P : Nat} (hP : 0 < P) (k : Nat) :
    num_pages N P ≤ k ↔ N ≤ k * P := by
  unfold num_pages
  rw [Nat.div_le_iff_le_mul_add_pred hP, Nat.mul_comm]
  generalize k * P = t
  omega

lemma length_le_num_pages_mul {N P : Nat} (hP : 0 < P) :
    N ≤ num_pages N P * P :=
  (num_pages_le_iff hP _).mp le_rfl

lemma pages_flatten_aux {α : Type} (P : Nat) :
    ∀ (n : Nat) (rs : List α), rs.length ≤ n * P →
      ((List.range n).map (fun i => (rs.drop (i * P)).take P)).flatten = rs := by
  intro n
  induction n with
  | zero =>
      intro rs h
      have hnil : rs = [] := List.eq_nil_of_length_eq_zero (by omega)
      simp [hnil]
  | succ n ih =>
      intro rs h
      rw [List.range_succ_eq_map, List.map_cons, List.map_map, List.flatten_cons]
      have hmap : (List.range n).map ((fun i => (rs.drop (i * P)).take P) ∘ Nat.succ)
          = (List.range n).map (fun i => (((rs.drop P).drop (i * P)).take P)) := by
        apply List.map_congr_left
        intro i _
        show (rs.drop (Nat.succ i * P)).take P = ((rs.drop P).drop (i * P)).take P
        rw [List.drop_drop, Nat.succ_mul, Nat.add_comm]
      rw [hmap, ih (rs.drop P) ?_, Nat.zero_mul, List.drop_zero, List.take_append_drop]
      have hlen : (rs.drop P).length = rs.length - P := List.length_drop P rs
      rw [Nat.succ_mul] at h
      omega

end Pagination

/-- C1: for every page size `P > 0` and every record list, `display_travel_data`
computes the number of pages as the ceiling `⌈N/P⌉` (via `(N + P - 1) // P`;
characterised here by the Galois property `num_pages N P ≤ k ↔ N ≤ k * P`),
and the concatenation, in page order, of the slices
`[(page-1)*P, min(page*P, N))` for `page = 1 .. num_pages` reproduces the
original record sequence exactly — no record duplicated or dropped. -/
theorem c1_pagination_partition {α : Type} (P : Nat) (hP : 0 < P) (rs : List α) :
    (∀ k, Pagination.num_pages rs.length P ≤ k ↔ rs.length ≤ k * P) ∧
    Pagination.pagesConcat rs P = rs := by
  refine ⟨fun k => Pagination.num_pages_le_iff hP k, ?_⟩
  unfold Pagination.pagesConcat
  have : ∀ i : Nat, Pagination.pageSlice rs P (i + 1) = (rs.drop (i * P)).take P := by
    intro i
    unfold Pagination.pageSlice
    rw [Nat.add_sub_cancel]
  simp only [this]
  exact Pagination.pages_flatten_aux P _ rs (Pagination.length_le_num_pages_mul hP)

/-- Witness for C1 at `P = 5` and a concrete 7-element list. -/
theorem c1_pagination_partition_witness :
    (∀ k, Pagination.num_pages ([0, 1, 2, 3, 4, 5, 6] : List Nat).length 5 ≤ k ↔
      ([0, 1, 2, 3, 4, 5, 6] : List Nat).length ≤ k * 5) ∧
    Pagination.pagesConcat ([0, 1, 2, 3, 4, 5, 6] : List Nat) 5 = [0, 1, 2, 3, 4, 5, 6] :=
  c1_pagination_partition 5 (by decide) _

/-- C2: for a nonempty record list (with an empty list `display_travel_data`
returns before paginating), every requested page number is clamped into
`[1, num_pages]`; when `num_pages ≤ 1` the effective page is `1`; and the
start index `(page - 1) * page_size` of the displayed slice never exceeds the
record count. -/
theorem c2_page_clamping {α : Type} (rs : List α) (hne : rs ≠ []) (requested : Nat) :
    1 ≤ Pagination.effective_page rs.length requested ∧
    Pagination.effective_page rs.length requested ≤
      Pagination.num_pages rs.length Pagination.page_size ∧
    (Pagination.num_pages rs.length Pagination.page_size ≤ 1 →
      Pagination.effective_page rs.length requested = 1) ∧
    Pagination.start_idx rs.length requested ≤ rs.length := by
  have hN : 0 < rs.length := List.length_pos.mpr hne
  unfold Pagination.start_idx Pagination.effective_page Pagination.number_input_value
    Pagination.num_pages Pagination.page_size
  simp only [Nat.max_def, Nat.min_def]
  split_ifs <;> omega

/-- Witness for C2: one record, requested page 99. -/
theorem c2_page_clamping_witness :
    1 ≤ Pagination.effective_page ([0] : List Nat).length 99 ∧
    Pagination.effective_page ([0] : List Nat).length 99 ≤
      Pagination.num_pages ([0] : List Nat).length Pagination.page_size ∧
    (Pagination.num_pages ([0] : List Nat).length Pagination.page_size ≤ 1 →
      Pagination.effective_page ([0] : List Nat).length 99 = 1) ∧
    Pagination.start_idx ([0] : List Nat).length 99 ≤ ([0] : List Nat).length :=
  c2_page_clamping [0] (by decide) 99

/- ------------------------------------------------------------------ -/
/- Page-cursor session state (C7)                                      -/
/- ------------------------------------------------------------------ -/

namespace SessionState

/-- The slice of `st.session_state` the page cursor lives in: the currently
displayed record list and `page_number` (`initialize_session_state`,
`src/daytrip-planner/main.py` lines 425-437). -/
structure AppState (α : Type) where
  records : List α
  page_number : Nat
  deriving DecidableEq

/-- The two kinds of events that touch the cursor:
* `newRecords rs` — a new capture/extraction replaces the displayed records;
  both `cached_capture_explore_page` and `cached_extract_travel_data`
  (`main.py` lines 45-54) set `st.session_state.page_number = 1` when they
  run, and `main` (lines 636-641) also resets the cursor to 1 when the
  starting location changes;
* `paginate requested` — the user pagination widget in
  `display_travel_data` (lines 454-467) stores the clamped page back into
  `st.session_state.page_number`. -/
inductive Event (α : Type) where
  | newRecords (rs : List α)
  | paginate (requested : Nat)
  deriving DecidableEq

/-- `initialize_session_state`: `page_number = 1`, no records displayed yet. -/
def initState (α : Type) : AppState α := { records := [], page_number := 1 }

def step {α : Type} (s : AppState α) : Event α → AppState α
  | .newRecords rs => { records := rs, page_number := 1 }
  | .paginate requested =>
      { s with page_number := Pagination.effective_page s.records.length requested }

def run {α : Type} (events : List (Event α)) : AppState α :=
  events.foldl step (initState α)

/-- The cursor invariant maintained by every mutation site. -/
def CursorInv {α : Type} (s : AppState α) : Prop :=
  1 ≤ s.page_number ∧
    s.page_number ≤ Nat.max 1 (Pagination.num_pages s.records.length Pagination.page_size)

lemma effective_page_bounds (total requested : Nat) :
    1 ≤ Pagination.effective_page total requested ∧
      Pagination.effective_page total requested ≤
        Nat.max 1 (Pagination.num_pages total Pagination.page_size) := by
  unfold Pagination.effective_page Pagination.number_input_value Pagination.num_pages
    Pagination.page_size
  simp only [Nat.max_def, Nat.min_def]
  split_ifs <;> omega

lemma cursorInv_step {α : Type} (s : AppState α) (e : Event α) :
    CursorInv s → CursorInv (step s e) := by
  intro _
  cases e with
  | newRecords rs =>
      refine ⟨le_refl 1, ?_⟩
      exact Nat.le_max_left 1 _
  | paginate requested =>
      exact effective_page_bounds s.records.length requested

lemma cursorInv_foldl {α : Type} (events : List (Event α)) :
    ∀ s : AppState α, CursorInv s → CursorInv (events.foldl step s) := by
  induction events with
  | nil => intro s h; exact h
  | cons e es ih => intro s h; exact ih (step s e) (cursorInv_step s e h)

end SessionState

/-- C7, counterexample to the claim as stated: after a capture that yields
zero records, the cursor is `1` but `ceil(0 / page_size) = 0`, so the cursor
is NOT in the interval `[1, ceil(N/page_size)]` (which is empty). -/
theorem c7_page_cursor_counterexample :
    (SessionState.run [SessionState.Event.newRecords ([] : List Nat)]).page_number = 1 ∧
    Pagination.num_pages
      (SessionState.run [SessionState.Event.newRecords ([] : List Nat)]).records.length
      Pagination.page_size = 0 := by
  exact ⟨rfl, rfl⟩

/-- C7 (amended): along every event trace from the initial session state, the
page cursor stays in `[1, max 1 (ceil(N/page_size))]` — in particular in
`[1, ceil(N/page_size)]` whenever the record set is nonempty — it is mutated
only by the modelled events, and every event that replaces the record set
resets it to 1. -/
theorem c7_page_cursor_invariant {α : Type} (events : List (SessionState.Event α)) :
    (1 ≤ (SessionState.run events).page_number ∧
      (SessionState.run events).page_number ≤
        Nat.max 1 (Pagination.num_pages
          (SessionState.run events).records.length Pagination.page_size)) ∧
    ((SessionState.run events).records ≠ [] →
      (SessionState.run events).page_number ≤
        Pagination.num_pages (SessionState.run events).records.length Pagination.page_size) ∧
    (∀ rs : List α,
      (SessionState.step (SessionState.run events) (SessionState.Event.newRecords rs)).page_number
        = 1) := by
  have hinv : SessionState.CursorInv (SessionState.run events) :=
    SessionState.cursorInv_foldl events (SessionState.initState α)
      ⟨le_refl 1, Nat.le_max_left 1 _⟩
  refine ⟨hinv, ?_, fun rs => rfl⟩
  intro hne
  have hN : 0 < (SessionState.run events).records.length := List.length_pos.mpr hne
  have hnp : 1 ≤ Pagination.num_pages
      (SessionState.run events).records.length Pagination.page_size := by
    unfold Pagination.num_pages Pagination.page_size
    omega
  exact le_trans hinv.2 (Nat.max_le.mpr ⟨hnp, le_rfl⟩)

/-- Witness for C7's amended invariant on a concrete trace. -/
theorem c7_page_cursor_invariant_witness :
    (1 ≤ (SessionState.run
        [SessionState.Event.newRecords [10, 20, 30, 40, 50, 60],
         SessionState.Event.paginate 7]).page_number ∧
      (SessionState.run
        [SessionState.Event.newRecords [10, 20, 30, 40, 50, 60],
         SessionState.Event.paginate 7]).page_number ≤
        Nat.max 1 (Pagination.num_pages
          (SessionState.run
            [SessionState.Event.newRecords [10, 20, 30, 40, 50, 60],
             SessionState.Event.paginate 7]).records.length Pagination.page_size)) ∧
    ((SessionState.run
        [SessionState.Event.newRecords [10, 20, 30, 40, 50, 60],
         SessionState.Event.paginate 7]).records ≠ [] →
      (SessionState.run
        [SessionState.Event.newRecords [10, 20, 30, 40, 50, 60],
         SessionState.Event.paginate 7]).page_number ≤
        Pagination.num_pages
          (SessionState.run
            [SessionState.Event.newRecords [10, 20, 30, 40, 50, 60],
             SessionState.Event.paginate 7]).records.length Pagination.page_size) ∧
    (∀ rs : List Nat,
      (SessionState.step
        (SessionState.run
          [SessionState.Event.newRecords [10, 20, 30, 40, 50, 60],
           SessionState.Event.paginate 7])
        (SessionState.Event.newRecords rs)).page_number = 1) :=
  c7_page_cursor_invariant
    [SessionState.Event.newRecords [10, 20, 30, 40, 50, 60], SessionState.Event.paginate 7]

/- ------------------------------------------------------------------ -/
/- Location validation (`validate_city`, daytrip-planner) (C8)         -/
/- ------------------------------------------------------------------ -/

namespace LocationValidator

/-- One geocoding result from the Nominatim response, restricted to the two
fields `validate_city` reads: `data[0].get("addresstype", "")` and
`data[0].get("display_name", "")` (missing keys default to `""`, so the
fields are total strings). -/
structure GeoPlace where
  addresstype : String
  display_name : String
  deriving DecidableEq

/-- Python substring membership `sub in s` on lists of characters. -/
def subInChars (sub : List Char) : List Char → Bool
  | [] => sub.isEmpty
  | c :: cs => sub.isPrefixOf (c :: cs) || subInChars sub cs

/-- Python `sub in s` for strings. -/
def strIn (sub s : String) : Bool := subInChars sub.toList s.toList

/-- Python `str.lower` (the strings compared against are ASCII keywords),
character by character over the string's characters. -/
def lowerStr (s : String) : String := String.mk (s.data.map Char.toLower)

/-- The compound condition of `validate_city`
(`src/daytrip-planner/location_validator.py` lines 19-24), evaluated with
Python semantics: `and` binds tighter than `or`, so the condition groups as
`(data and "city" in A) or ("town" in A and D == C)` where
`A = data[0].get("addresstype", "").lower()`,
`D = data[0].get("display_name", "").lower()`, `C = city_name.lower()`.
When `data` is the empty list the left disjunct short-circuits to falsy and
the right disjunct evaluates `data[0]`, raising `IndexError`
(`Except.error ()` here). -/
def validate_city_cond (data : List GeoPlace) (city_name : String) : Except Unit Bool :=
  match data with
  | [] => Except.error ()
  | p :: _ =>
      if strIn "city" (lowerStr p.addresstype) then Except.ok true
      else Except.ok (strIn "town" (lowerStr p.addresstype) &&
        (lowerStr p.display_name == lowerStr city_name))

/-- `validate_city`: `True` when the condition holds, `False` otherwise; the
surrounding `try/except` turns any exception (including the `IndexError` on
an empty result list) into `False` (lines 9-29). -/
def validate_city (data : List GeoPlace) (city_name : String) : Bool :=
  match validate_city_cond data city_name with
  | Except.ok b => b
  | Except.error _ => false

/-- The claim's reading of the routine: a non-empty geocoding response whose
first result either has an address type containing "city", or has an address
type containing "town" AND a display name equal to the queried name
case-insensitively. -/
def claim_accepts (data : List GeoPlace) (city_name : String) : Bool :=
  match data with
  | [] => false
  | p :: _ =>
      strIn "city" (lowerStr p.addresstype) ||
        (strIn "town" (lowerStr p.addresstype) &&
          (lowerStr p.display_name == lowerStr city_name))

end LocationValidator

/-- C8: `validate_city` returns `True` exactly when the geocoding response is
non-empty and either the returned address type contains "city", or it
contains "town" and the display name equals the queried city name
case-insensitively — the exact-name-match condition applies only to the
"town" branch, not to the "city" branch. -/
theorem c8_validate_city_precedence
    (data : List LocationValidator.GeoPlace) (city_name : String) :
    LocationValidator.validate_city data city_name =
      LocationValidator.claim_accepts data city_name := by
  cases data with
  | nil => rfl
  | cons p rest =>
      unfold LocationValidator.validate_city LocationValidator.validate_city_cond
        LocationValidator.claim_accepts
      by_cases h : LocationValidator.strIn "city" (LocationValidator.lowerStr p.addresstype) <;>
        simp [h]

/- ------------------------------------------------------------------ -/
/- Commit categorisation (`generate_categorized_changelog`) (C9)       -/
/- ------------------------------------------------------------------ -/

namespace Changelog

/-- A commit as consumed by the categoriser; only `commit.get("message", "")`
is inspected when assigning a category
(`src/changelog-builder/changelog_generator.py` line 234). -/
structure Commit where
  message : String
  deriving DecidableEq

inductive CommitCategory where
  | features
  | bugfixes
  | docs
  | refactoring
  | tests
  | other
  deriving DecidableEq

def featureKeywords : List String := ["feat", "feature", "add", "new"]
def bugfixKeywords : List String := ["fix", "bug", "issue", "error", "resolv"]
def docsKeywords : List String := ["doc", "readme", "comment"]
def refactorKeywords : List String := ["refactor", "clean", "restructure"]
def testKeywords : List String := ["test", "spec", "assert"]

/-- `any(keyword in message for keyword in kws)` on the lower-cased message. -/
def matchesAny (m : String) (kws : List String) : Bool :=
  kws.any (fun k => LocationValidator.strIn k m)

/-- The `if/elif` chain of `generate_categorized_changelog` (lines 234-251):
categories are tested in this fixed priority order on
`message = commit.get("message", "").lower()`, and the first match wins. -/
def categorize (message : String) : CommitCategory :=
  if matchesAny (LocationValidator.lowerStr message) featureKeywords then .features
  else if matchesAny (LocationValidator.lowerStr message) bugfixKeywords then .bugfixes
  else if matchesAny (LocationValidator.lowerStr message) docsKeywords then .docs
  else if matchesAny (LocationValidator.lowerStr message) refactorKeywords then .refactoring
  else if matchesAny (LocationValidator.lowerStr message) testKeywords then .tests
  else .other

/-- The list built for one category: the single pass appending each commit to
the list of its (unique) category preserves order, so each category list is
the filter of the input by that category. -/
def categoryList (cs : List Commit) (cat : CommitCategory) : List Commit :=
  cs.filter (fun c => categorize c.message == cat)

/-- The six category sections in the order they are emitted
(Features, Bug Fixes, Documentation, Refactoring, Tests, Other Changes). -/
def allCategories : List CommitCategory :=
  [.features, .bugfixes, .docs, .refactoring, .tests, .other]

/-- The concatenation of all category lists, in section order. -/
def categorizedConcat (cs : List Commit) : List Commit :=
  (allCategories.map (categoryList cs)).flatten

lemma count_filter_eq (a : Commit) (p : Commit → Bool) (l : List Commit) :
    (l.filter p).count a = if p a then l.count a else 0 := by
  by_cases hpa : p a = true
  · rw [if_pos hpa]
    exact List.count_filter hpa
  · rw [if_neg hpa]
    refine List.count_eq_zero.mpr ?_
    intro hmem
    exact hpa (List.of_mem_filter hmem)

lemma categorizedConcat_count (cs : List Commit) (a : Commit) :
    (categorizedConcat cs).count a = cs.count a := by
  unfold categorizedConcat allCategories categoryList
  simp only [List.map_cons, List.map_nil, List.flatten_cons, List.flatten_nil,
    List.count_append, List.append_nil, count_filter_eq, beq_iff_eq]
  rcases h : categorize a.message <;> simp [h]

end Changelog

/-- C9: the keyword-based categorisation partitions the commit list — the
concatenation of the six category lists (Features, Bug Fixes, Documentation,
Refactoring, Tests, Other Changes), emitted in that order, is a permutation
of the input, so every commit lands in exactly one category; categories are
tested in that fixed priority order on the lower-cased message, so a message
matching keywords of several categories (here both "add" and "fix") lands
only in the first matching one. -/
theorem c9_categorization_partition (cs : List Changelog.Commit) :
    (Changelog.categorizedConcat cs).Perm cs ∧
    Changelog.categorize "Add a fix for the parser" = Changelog.CommitCategory.features := by
  constructor
  · exact List.perm_iff_count.mpr (fun a => Changelog.categorizedConcat_count cs a)
  · rfl

/- ------------------------------------------------------------------ -/
/- Screenshot processing (`process_screenshot`) (C10)                  -/
/- ------------------------------------------------------------------ -/

namespace Screenshot

/-- An image as a size plus a pixel accessor (PIL image contents; the file
paths and temporary files of the Python code carry no information the claim
is about). -/
structure Img where
  width : Nat
  height : Nat
  px : Nat → Nat → Nat

/-- `PIL.Image.crop((left, top, right, bottom))`: the result has size
`(right - left, bottom - top)` and pixel `(x, y)` of the result is pixel
`(x + left, y + top)` of the source (no padding occurs here because the box
never exceeds the image). -/
def crop (img : Img) (left top right bottom : Nat) : Img :=
  { width := right - left
    height := bottom - top
    px := fun x y => img.px (x + left) (y + top) }

/-- `crop_screenshot` (`src/daytrip-planner/main.py` lines 392-419, identical
arithmetic in `budget-travel-agent/main.py` lines 119-141):
`crop_width = min(width, max_dimension)`, `crop_height = min(height, max_dimension)`,
`left, top = 0, 0`, `right = min(width, crop_width)`, `bottom = min(height, crop_height)`,
then `img.crop((left, top, right, bottom))`. -/
def crop_screenshot (img : Img) (width height max_dimension : Nat) : Img :=
  crop img 0 0 (Nat.min width (Nat.min width max_dimension))
    (Nat.min height (Nat.min height max_dimension))

/-- `process_screenshot` (`main.py` lines 379-389): with
`max_dimension = 2048`, crop only when `width > 2048 or height > 2048`,
otherwise return the image unchanged. -/
def process_screenshot (img : Img) : Img :=
  if 2048 < img.width || 2048 < img.height then
    crop_screenshot img img.width img.height 2048
  else img

end Screenshot

/-- C10: `process_screenshot` always returns an image whose width and height
are at most 2048; an image already fitting in 2048x2048 is returned
unchanged, and otherwise the result is exactly the top-left crop of the
input of size `(min(width, 2048), min(height, 2048))`. -/
theorem c10_screenshot_bounds (img : Screenshot.Img) :
    (Screenshot.process_screenshot img).width ≤ 2048 ∧
    (Screenshot.process_screenshot img).height ≤ 2048 ∧
    (img.width ≤ 2048 → img.height ≤ 2048 → Screenshot.process_screenshot img = img) ∧
    (2048 < img.width ∨ 2048 < img.height →
      Screenshot.process_screenshot img =
        Screenshot.crop img 0 0 (Nat.min img.width 2048) (Nat.min img.height 2048)) := by
  unfold Screenshot.process_screenshot Screenshot.crop_screenshot
  by_cases h : 2048 < img.width || 2048 < img.height
  · rw [if_pos h]
    have hw : Nat.min img.width (Nat.min img.width 2048) = Nat.min img.width 2048 :=
      Nat.min_eq_right (Nat.min_le_left img.width 2048)
    have hh : Nat.min img.height (Nat.min img.height 2048) = Nat.min img.height 2048 :=
      Nat.min_eq_right (Nat.min_le_left img.height 2048)
    rw [hw, hh]
    rw [Bool.or_eq_true, decide_eq_true_eq, decide_eq_true_eq] at h
    refine ⟨?_, ?_, ?_, fun _ => rfl⟩
    · show Nat.min img.width 2048 - 0 ≤ 2048
      have hwle : Nat.min img.width 2048 ≤ 2048 := Nat.min_le_right img.width 2048
      omega
    · show Nat.min img.height 2048 - 0 ≤ 2048
      have hhle : Nat.min img.height 2048 ≤ 2048 := Nat.min_le_right img.height 2048
      omega
    · intro hw' hh'
      exfalso
      omega
  · rw [if_neg h]
    rw [Bool.or_eq_true, decide_eq_true_eq, decide_eq_true_eq] at h
    push_neg at h
    refine ⟨by omega, by omega, fun _ _ => rfl, ?_⟩
    intro hcase
    exfalso
    omega

/-- Witness for C10: a 4000 x 100 screenshot is cropped to 2048 x 100,
and its processed dimensions fit in 2048 x 2048. -/
theorem c10_screenshot_bounds_witness :
    (Screenshot.process_screenshot
        { width := 4000, height := 100, px := fun _ _ => 0 }).width ≤ 2048 ∧
    Screenshot.process_screenshot { width := 4000, height := 100, px := fun _ _ => 0 } =
      Screenshot.crop { width := 4000, height := 100, px := fun _ _ => 0 } 0 0
        (Nat.min 4000 2048) (Nat.min 100 2048) :=
  ⟨(c10_screenshot_bounds { width := 4000, height := 100, px := fun _ _ => 0 }).1,
   (c10_screenshot_bounds { width := 4000, height := 100, px := fun _ _ => 0 }).2.2.2
     (Or.inl (by decide))⟩

/- ------------------------------------------------------------------ -/
/- Retry policy of `call_openai_api` (C3)                              -/
/- ------------------------------------------------------------------ -/

namespace Retry

/-- The spec's error taxonomy for the remote job client
(TransientServiceError, InvalidRequestError, TimeoutError). -/
inductive ApiError where
  | transientService
  | invalidRequest
  | timeout
  deriving DecidableEq

/-- `tenacity.wait_exponential(multiplier=1, min=2, max=10)`: after the
`n`-th failed attempt the sleep is
`max(lo, min(multiplier * 2 ^ (n - 1), hi))` seconds (tenacity computes
`multiplier * exp_base ** (attempt_number - 1)` with `exp_base = 2` and
clamps it into `[min, max]`; `attempt_number` is the 1-based number of the
attempt that just failed). -/
def wait_exponential (multiplier lo hi n : Nat) : Nat :=
  Nat.max lo (Nat.min (multiplier * 2 ^ (n - 1)) hi)

/-- The observable outcome of one run of the decorated call: the surfaced
result, the number of attempts performed, and the sleeps inserted between
attempts. -/
structure RunResult where
  result : Except ApiError String
  attempts : Nat
  waits : List Nat

/-- The `tenacity` retry loop as configured on `call_openai_api`
(`src/changelog-builder/changelog_generator.py` line 43):
`@retry(stop=stop_after_attempt(3), wait=wait_exponential(multiplier=1, min=2, max=10))`.
No `retry=` argument is supplied, so tenacity's default predicate applies:
it retries after ANY exception.  `outcomes n` is what the wrapped call does
on its `n`-th attempt (1-based); `remaining` is the number of further
attempts `stop_after_attempt` still allows.  When the stop condition is
reached the last exception is surfaced to the caller (tenacity raises
`RetryError` wrapping it). -/
def retryGo (outcomes : Nat → Except ApiError String) (n : Nat) :
    Nat → RunResult
  | 0 => { result := outcomes n, attempts := n, waits := [] }
  | remaining + 1 =>
      match outcomes n with
      | Except.ok v => { result := Except.ok v, attempts := n, waits := [] }
      | Except.error _ =>
          let w := wait_exponential 1 2 10 n
          let r := retryGo outcomes (n + 1) remaining
          { result := r.result, attempts := r.attempts, waits := w :: r.waits }

/-- One invocation of the decorated `call_openai_api`:
`stop_after_attempt(3)` allows attempts 1, 2 and 3. -/
def call_openai_api_run (outcomes : Nat → Except ApiError String) : RunResult :=
  retryGo outcomes 1 2

end Retry

/-- C3 fails as stated: non-transient errors ARE retried.  A call that raises
`InvalidRequestError` on its first attempt and would succeed on its second is
retried by the decorator (which has no `retry=` predicate restricting it to
transient errors) and returns the success after 2 attempts, whereas under
the claim the error would surface after 1 attempt with no retry. -/
theorem c3_retry_counterexample :
    (Retry.call_openai_api_run
        (fun n => if n = 1 then Except.error Retry.ApiError.invalidRequest
          else Except.ok "ok")).result = Except.ok "ok" ∧
    (Retry.call_openai_api_run
        (fun n => if n = 1 then Except.error Retry.ApiError.invalidRequest
          else Except.ok "ok")).attempts = 2 := by
  exact ⟨rfl, rfl⟩

/-- C3 (amended): the retried call retries after ANY exception (not only
`TransientServiceError`), up to 3 total attempts, with exponential backoff
whose sleeps all lie in `[2, 10]` seconds; a call failing exactly twice and
then succeeding returns the success after exactly 3 attempts (sleeping 2
then 2 seconds: the clamp to a minimum of 2 dominates the first two
exponential terms 1 and 2), and a call failing on all 3 attempts surfaces
the final error to the caller. -/
theorem c3_retry_amended (outcomes : Nat → Except Retry.ApiError String) :
    (Retry.call_openai_api_run outcomes).attempts ≤ 3 ∧
    (∀ w ∈ (Retry.call_openai_api_run outcomes).waits, 2 ≤ w ∧ w ≤ 10) ∧
    (∀ e1 e2 v, outcomes 1 = Except.error e1 → outcomes 2 = Except.error e2 →
      outcomes 3 = Except.ok v →
      (Retry.call_openai_api_run outcomes).result = Except.ok v ∧
      (Retry.call_openai_api_run outcomes).attempts = 3 ∧
      (Retry.call_openai_api_run outcomes).waits = [2, 2]) ∧
    (∀ e1 e2 e3, outcomes 1 = Except.error e1 → outcomes 2 = Except.error e2 →
      outcomes 3 = Except.error e3 →
      (Retry.call_openai_api_run outcomes).result = Except.error e3 ∧
      (Retry.call_openai_api_run outcomes).attempts = 3) := by
  rcases h1 : outcomes 1 with e1 | v1 <;> rcases h2 : outcomes 2 with e2 | v2 <;>
    rcases h3 : outcomes 3 with e3 | v3 <;>
    simp [Retry.call_openai_api_run, Retry.retryGo, Retry.wait_exponential, h1, h2, h3]

/-- Witness for C3 (amended) on a call failing transiently twice then
succeeding: success after exactly 3 attempts, sleeping 2 then 2 seconds. -/
theorem c3_retry_amended_witness :
    (Retry.call_openai_api_run
        (fun n => if n ≤ 2 then Except.error Retry.ApiError.transientService
          else Except.ok "done")).result = Except.ok "done" ∧
    (Retry.call_openai_api_run
        (fun n => if n ≤ 2 then Except.error Retry.ApiError.transientService
          else Except.ok "done")).attempts = 3 ∧
    (Retry.call_openai_api_run
        (fun n => if n ≤ 2 then Except.error Retry.ApiError.transientService
          else Except.ok "done")).waits = [2, 2] :=
  (c3_retry_amended
      (fun n => if n ≤ 2 then Except.error Retry.ApiError.transientService
        else Except.ok "done")).2.2.1
    Retry.ApiError.transientService Retry.ApiError.transientService "done" rfl rfl rfl

/- ------------------------------------------------------------------ -/
/- Travel-data extraction and validation (C5)                          -/
/- ------------------------------------------------------------------ -/

namespace TravelData

/-- A raw JSON-ish field value in the model response. -/
inductive JVal where
  | str (s : String)
  | num (n : Int)
  deriving DecidableEq

/-- One raw destination object of the model's response, before validation:
each field of the `TravelDestination` schema may be missing (`none`) or hold
a value of either type. -/
structure RawDestination where
  location : Option JVal
  price : Option JVal
  start_date : Option JVal
  end_date : Option JVal
  travel_time : Option JVal
  stay_cost : Option JVal
  deriving DecidableEq

/-- `TravelDestination` (`src/daytrip-planner/chatgpt_parser.py` lines 9-31):
all six fields are required (`Field(...)`), `location`, `start_date`,
`end_date` and `travel_time` are `str`, `price` and `stay_cost` are `int`. -/
structure TravelDestination where
  location : String
  price : Int
  start_date : String
  end_date : String
  travel_time : String
  stay_cost : Int
  deriving DecidableEq

def asStr : Option JVal → Option String
  | some (JVal.str s) => some s
  | _ => none

def asInt : Option JVal → Option Int
  | some (JVal.num n) => some n
  | _ => none

/-- pydantic validation of one destination: every required field must be
present with the declared type; a missing or mistyped field raises
`ValidationError` (modelled as `none`); a valid record carries exactly the
raw field values. -/
def validateDestination (r : RawDestination) : Option TravelDestination := do
  let location ← asStr r.location
  let price ← asInt r.price
  let start_date ← asStr r.start_date
  let end_date ← asStr r.end_date
  let travel_time ← asStr r.travel_time
  let stay_cost ← asInt r.stay_cost
  pure { location := location, price := price, start_date := start_date,
         end_date := end_date, travel_time := travel_time, stay_cost := stay_cost }

/-- pydantic validation of `TravelResponseData` inside
`client.beta.chat.completions.parse(..., response_format=TravelResponseData)`:
the whole `destinations` list is validated; one invalid record fails the
whole parse. -/
def parseTravelResponse (rs : List RawDestination) : Option (List TravelDestination) :=
  rs.mapM validateDestination

/-- `extract_travel_data_from_image` (`chatgpt_parser.py` lines 42-100),
reduced to its data path: on a successful parse the destinations are
returned; any exception — including the `ValidationError` raised by a single
invalid record — is caught by `except Exception`, printed, and the function
falls through returning `None`. -/
def extract_travel_data_from_image (rs : List RawDestination) :
    Option (List TravelDestination) :=
  match parseTravelResponse rs with
  | some destinations => some destinations
  | none => none

lemma mapM_eq_some_map {rs : List RawDestination} {ds : List TravelDestination}
    (h : rs.mapM validateDestination = some ds) :
    rs.map validateDestination = ds.map some := by
  induction rs generalizing ds with
  | nil =>
      simp only [List.mapM_nil, pure, Option.some.injEq] at h
      simp [← h]
  | cons r rest ih =>
      rw [List.mapM_cons] at h
      rcases hr : validateDestination r with _ | d
      · rw [hr] at h
        simp at h
      · rw [hr] at h
        rcases hrest : rest.mapM validateDestination with _ | ds'
        · rw [hrest] at h
          simp at h
        · rw [hrest] at h
          simp only [Option.bind_eq_bind, Option.some_bind, pure, Option.some.injEq] at h
          subst h
          simp [List.map_cons, hr, ih hrest]

lemma extract_eq_parse (rs : List RawDestination) :
    extract_travel_data_from_image rs = parseTravelResponse rs := by
  unfold extract_travel_data_from_image
  cases hp : parseTravelResponse rs
  · rfl
  · rfl

end TravelData

/-- C5 fails as stated: a result set holding one fully valid record and one
record missing its required `price` is NOT mapped to the surviving valid
record — the whole extraction returns `None`, aborting the result set. -/
theorem c5_record_exclusion_counterexample :
    TravelData.extract_travel_data_from_image
      [{ location := some (TravelData.JVal.str "Paris"),
         price := some (TravelData.JVal.num 120),
         start_date := some (TravelData.JVal.str "2025-06-14"),
         end_date := some (TravelData.JVal.str "2025-06-15"),
         travel_time := some (TravelData.JVal.str "2h 30m"),
         stay_cost := some (TravelData.JVal.num 90) },
       { location := some (TravelData.JVal.str "Rome"),
         price := none,
         start_date := some (TravelData.JVal.str "2025-06-14"),
         end_date := some (TravelData.JVal.str "2025-06-15"),
         travel_time := some (TravelData.JVal.str "3h"),
         stay_cost := some (TravelData.JVal.num 80) }] = none ∧
    TravelData.validateDestination
      { location := some (TravelData.JVal.str "Paris"),
        price := some (TravelData.JVal.num 120),
        start_date := some (TravelData.JVal.str "2025-06-14"),
        end_date := some (TravelData.JVal.str "2025-06-15"),
        travel_time := some (TravelData.JVal.str "2h 30m"),
        stay_cost := some (TravelData.JVal.num 90) } =
      some { location := "Paris", price := 120, start_date := "2025-06-14",
             end_date := "2025-06-15", travel_time := "2h 30m", stay_cost := 90 } :=
  ⟨rfl, rfl⟩

/-- C5 (amended): a result set containing any record with a missing or
mistyped required field makes the whole extraction fail (`None`, with the
validation error reported by the `except` block) — the remaining valid
records are NOT returned; when the extraction does succeed, every input
record was valid and is passed through in order; and a fully valid record
maps to exactly its raw field values, so no partial record is ever
emitted. -/
theorem c5_record_exclusion_amended (rs : List TravelData.RawDestination) :
    ((∃ r ∈ rs, TravelData.validateDestination r = none) →
      TravelData.extract_travel_data_from_image rs = none) ∧
    (∀ ds, TravelData.extract_travel_data_from_image rs = some ds →
      rs.map TravelData.validateDestination = ds.map some) ∧
    (∀ a b c d e f, TravelData.validateDestination
        { location := some (TravelData.JVal.str a),
          price := some (TravelData.JVal.num b),
          start_date := some (TravelData.JVal.str c),
          end_date := some (TravelData.JVal.str d),
          travel_time := some (TravelData.JVal.str e),
          stay_cost := some (TravelData.JVal.num f) } =
      some { location := a, price := b, start_date := c, end_date := d,
             travel_time := e, stay_cost := f }) := by
  refine ⟨?_, ?_, fun a b c d e f => rfl⟩
  · rintro ⟨r, hr, hnone⟩
    rw [TravelData.extract_eq_parse]
    rcases hparse : TravelData.parseTravelResponse rs with _ | ds
    · rfl
    · exfalso
      have hmap := TravelData.mapM_eq_some_map hparse
      have hmem : TravelData.validateDestination r ∈
          rs.map TravelData.validateDestination := List.mem_map_of_mem _ hr
      rw [hmap, hnone] at hmem
      rcases List.mem_map.mp hmem with ⟨d, _, hd⟩
      exact Option.noConfusion hd
  · intro ds h
    rw [TravelData.extract_eq_parse] at h
    exact TravelData.mapM_eq_some_map h

/-- Witness for C5 (amended): a set with one record missing `price` maps to
`None`, and a fully valid record passes through unchanged. -/
theorem c5_record_exclusion_amended_witness :
    TravelData.extract_travel_data_from_image
      [{ location := some (TravelData.JVal.str "Rome"),
         price := none,
         start_date := some (TravelData.JVal.str "2025-06-14"),
         end_date := some (TravelData.JVal.str "2025-06-15"),
         travel_time := some (TravelData.JVal.str "3h"),
         stay_cost := some (TravelData.JVal.num 80) }] = none ∧
    TravelData.validateDestination
      { location := some (TravelData.JVal.str "Lyon"),
        price := some (TravelData.JVal.num 75),
        start_date := some (TravelData.JVal.str "2025-07-01"),
        end_date := some (TravelData.JVal.str "2025-07-02"),
        travel_time := some (TravelData.JVal.str "1h 10m"),
        stay_cost := some (TravelData.JVal.num 60) } =
      some { location := "Lyon", price := 75, start_date := "2025-07-01",
             end_date := "2025-07-02", travel_time := "1h 10m", stay_cost := 60 } :=
  ⟨(c5_record_exclusion_amended
      [{ location := some (TravelData.JVal.str "Rome"),
         price := none,
         start_date := some (TravelData.JVal.str "2025-06-14"),
         end_date := some (TravelData.JVal.str "2025-06-15"),
         travel_time := some (TravelData.JVal.str "3h"),
         stay_cost := some (TravelData.JVal.num 80) }]).1
    ⟨_, List.mem_singleton.mpr rfl, rfl⟩,
   (c5_record_exclusion_amended []).2.2 "Lyon" 75 "2025-07-01" "2025-07-02" "1h 10m" 60⟩

/- ------------------------------------------------------------------ -/
/- Article response mapper (`ArticleContent.from_json`) (C6)           -/
/- ------------------------------------------------------------------ -/

namespace ArticleTTS

/-- The raw extraction payload handed to `ArticleContent.from_json`
(`src/article-tts/app.py`): a JSON object in which any of the four schema
fields may be absent.  The extraction schema types all four as strings. -/
structure RawArticle where
  title : Option String
  fullContent : Option String
  author : Option String
  abstract : Option String
  deriving DecidableEq

/-- `ArticleContent` (`app.py` lines 28-37): `title` and `full_content` are
required strings, `author` and `abstract` optional. -/
structure ArticleContent where
  title : String
  full_content : String
  author : Option String
  abstract : Option String
  deriving DecidableEq

/-- `ArticleContent.from_json` (`app.py` lines 39-50):
`json_data.get("title", "")`, `json_data.get("fullContent", "")`,
`json_data.get("author", None)`, `json_data.get("abstract", None)` —
a total function; missing required fields are silently defaulted to `""`. -/
def from_json (data : RawArticle) : ArticleContent :=
  { title := data.title.getD ""
    full_content := data.fullContent.getD ""
    author := data.author
    abstract := data.abstract }

end ArticleTTS

/-- C6 fails as stated: a payload missing the required field `title` does NOT
make the mapper fail with a `SchemaViolationError` naming `title` — no such
error exists in the code; `from_json` is total and silently defaults the
missing `title` to the empty string. -/
theorem c6_missing_title_counterexample :
    ArticleTTS.from_json
        { title := none, fullContent := some "body", author := none, abstract := none } =
      { title := "", full_content := "body", author := none, abstract := none } :=
  rfl

/-- C6 (amended): for every raw extraction payload, a missing `title` is
silently defaulted to the empty string (the mapper never fails), and a
payload with `title` and `fullContent` present yields an `ArticleContent`
carrying exactly those field values. -/
theorem c6_from_json_defaults (data : ArticleTTS.RawArticle) :
    (data.title = none → (ArticleTTS.from_json data).title = "") ∧
    (∀ t fc, data.title = some t → data.fullContent = some fc →
      ArticleTTS.from_json data =
        { title := t, full_content := fc, author := data.author,
          abstract := data.abstract }) := by
  constructor
  · intro h
    unfold ArticleTTS.from_json
    rw [h]
    rfl
  · intro t fc ht hfc
    unfold ArticleTTS.from_json
    rw [ht, hfc]
    rfl

/-- Witness for C6 (amended) at a titleless payload and a complete payload. -/
theorem c6_from_json_defaults_witness :
    (ArticleTTS.from_json
        { title := none, fullContent := some "b", author := none, abstract := none }).title
      = "" ∧
    ArticleTTS.from_json
        { title := some "T", fullContent := some "B", author := some "A", abstract := none } =
      { title := "T", full_content := "B", author := some "A", abstract := none } :=
  ⟨(c6_from_json_defaults
      { title := none, fullContent := some "b", author := none, abstract := none }).1 rfl,
   (c6_from_json_defaults
      { title := some "T", fullContent := some "B", author := some "A", abstract := none }).2
     "T" "B" rfl rfl⟩

/- ------------------------------------------------------------------ -/
/- Validation-before-remote-call flow (C4)                             -/
/- ------------------------------------------------------------------ -/

namespace MainFlow

/-- The user-visible effects and remote calls the claim orders. -/
inductive Action where
  | validationError
  | missingLocationError
  | createSession
  | captureScreenshot
  | extractData
  deriving DecidableEq

/-- daytrip-planner `main` (`src/daytrip-planner/main.py` lines 627-688) for
a submitted nonempty city, reduced to the order of effects on the happy
path: if `validate_city` returns `False`, `st.error(...)` then `return` —
before `cached_browser_ws_url` (session creation), page capture or
extraction; otherwise the session is created, the explore page captured and
the travel data extracted.  `validCity` is the result of `validate_city`
(its geocoding lookup is not one of the remote calls the claim names). -/
def daytripMainActions (validCity : Bool) : List Action :=
  if !validCity then [Action.validationError]
  else [Action.createSession, Action.captureScreenshot, Action.extractData]

/-- budget-travel-agent `main` (`src/agents/budget-travel-agent/main.py`
lines 465-517) after the search button is pressed: an empty start location
errors out (line 466-468); otherwise line 469 sets
`st.session_state.search_button_clicked = True` and line 470 guards the
entire location-validation block with
`if not st.session_state.search_button_clicked:` — `False` at that point, so
`validate_city` is never called and the flow proceeds directly to
`take_screenshot`, which creates a remote session, captures the page and
then extracts.  `validCity` records what `validate_city` would return for
the entered location; the code never consults it. -/
def budgetMainActions (startLocationNonempty : Bool) (validCity : Bool) : List Action :=
  if !startLocationNonempty then [Action.missingLocationError]
  else [Action.createSession, Action.captureScreenshot, Action.extractData]

end MainFlow

/-- C4: in daytrip-planner a rejected city aborts with a validation error and
no remote call, but in budget-travel-agent the same rejected city still
leads to a remote session being created and no validation error being shown
— the claim's "holds in every demo that validates locations" fails on the
code, whose validation block is unreachable (a slip: the guard
`if not search_button_clicked` sits right after `search_button_clicked`
is set to `True`). -/
theorem c4_validation_abort_divergence :
    MainFlow.daytripMainActions false = [MainFlow.Action.validationError] ∧
    MainFlow.Action.createSession ∉ MainFlow.daytripMainActions false ∧
    MainFlow.Action.createSession ∈ MainFlow.budgetMainActions true false ∧
    MainFlow.Action.validationError ∉ MainFlow.budgetMainActions true false := by
  refine ⟨rfl, ?_, ?_, ?_⟩
  · decide
  · decide
  · decide
